import Mathlib

/-!
Verification of the `google_ads_scraper` repository (`src/main.py`) against its
natural-language specification.

The Python program is shallowly embedded: pure string manipulation is
translated to Lean functions on `String` / `List Char`; every awaited browser
or network operation is represented by an oracle field of an environment
record whose value is an `Except String _` (`.error msg` models the operation
raising an exception with message `msg`, `.ok` models normal completion).
Python `try/except/finally` control flow is translated explicitly.
`logging.*` calls, `traceback.format_exc()` and `import traceback` are treated
as non-raising (the Python logging machinery swallows handler errors), and are
not represented.  Screenshots taken inside `except` handlers are likewise
treated as non-raising.
-/

namespace GoogleAdsScraper

/-! ## Python string primitives (ASCII fragment)

`py_lower` models `str.lower()` on the ASCII fragment: characters `'A'..'Z'`
are mapped to `'a'..'z'`, all other characters are unchanged.
`py_strip` models `str.strip()`: the ASCII whitespace characters recognised by
Python (`' '`, `'\t'`, `'\n'`, `'\r'`, `'\x0b'`, `'\x0c'`) are removed from
both ends. -/

def py_lower_char (c : Char) : Char :=
  if 'A' ≤ c ∧ c ≤ 'Z' then Char.ofNat (c.toNat + 32) else c

def py_lower (s : String) : String :=
  ⟨s.data.map py_lower_char⟩

def isPySpace (c : Char) : Bool :=
  c = ' ' || c = '\t' || c = '\n' || c = '\r' || c = Char.ofNat 11 || c = Char.ofNat 12

def py_strip (s : String) : String :=
  ⟨((s.data.dropWhile isPySpace).reverse.dropWhile isPySpace).reverse⟩

/-- Python truthiness of an `Optional[str]` value: `None` and `""` are falsy. -/
def optTruthy : Option String → Bool
  | none => false
  | some s => s ≠ ""

/-- Lookup in a Python `dict` literal, modelled as an association list. -/
def dictGet (d : List (String × String)) (k : String) : Option String :=
  match d with
  | [] => none
  | (a, b) :: rest => if k = a then some b else dictGet rest k

/-- Lookup in a Python `dict` literal with integer values. -/
def dictGetNat (d : List (String × Nat)) (k : String) : Option Nat :=
  match d with
  | [] => none
  | (a, b) :: rest => if k = a then some b else dictGetNat rest k

/-! ## The two hardcoded lookup tables (main.py lines 135-137 and 768-770) -/

/-- `known_ids` dict literal from `get_advertiser_id` (main.py lines 135-137). -/
def known_ids : List (String × String) :=
  [("adidas", "AR14017378248766259201")]

/-- `known_video_counts` dict literal from `check_advertiser_videos`
(main.py lines 768-770). -/
def known_video_counts : List (String × Nat) :=
  [("AR14017378248766259201", 34)]

/-! ## Exception-flow model of `get_advertiser_id` (main.py lines 127-377)

The browser session is abstracted into an environment of oracles:
* `start`  — `async_playwright().start()` and `chromium.launch()`
  (main.py lines 147-148); if either raises, the local variable `browser`
  is still `None`, so the `finally` block does not close anything;
* `setup`  — `new_context` / `set_default_timeout` / `new_page` / `goto` /
  initial screenshot (lines 151-165); a raise here is caught only by the
  outer `except Exception` (line 370);
* `strat1` — the whole Strategy 1 block (lines 171-310): `.ok r` is the
  advertiser id it produced (possibly `none`), `.error` models an exception
  inside the block, which line 308 catches and logs before falling through
  to Strategy 2;
* `strat2` — the Strategy 2 block (lines 314-361), same convention;
* `close`  — `browser.close()` in the `finally` block (lines 376-377). -/
structure GEnv where
  start : Except String Unit
  setup : Except String Unit
  strat1 : Except String (Option String)
  strat2 : Except String (Option String)
  close : Except String Unit

/-- Model of `get_advertiser_id` (main.py lines 127-377).  The hardcoded
`known_ids` check (lines 140-143) happens before the `try` block, so a hit
returns without any browser interaction and without running the `finally`
block.  Otherwise the body runs under `try ... except Exception: return None`
(line 370-374) followed by `finally: if browser: await browser.close()`
(lines 375-377); per Python semantics an exception raised by the `finally`
block replaces any pending return or exception and propagates.  The Python
truthiness tests `if advertiser_id:` (lines 313 and 363) treat both `None`
and `""` as falsy. -/
def get_advertiser_id (advertiser_name : String) (env : GEnv) :
    Except String (Option String) :=
  match dictGet known_ids (py_lower advertiser_name) with
  | some id => .ok (some id)
  | none =>
    match env.start with
    | .error _ => .ok none
    | .ok _ =>
      let body : Except String (Option String) :=
        match env.setup with
        | .error m => .error m
        | .ok _ =>
          let s1 : Option String :=
            match env.strat1 with
            | .ok r => r
            | .error _ => none
          if optTruthy s1 then .ok s1
          else
            let s2 : Option String :=
              match env.strat2 with
              | .ok r => r
              | .error _ => none
            if optTruthy s2 then .ok s2 else .ok none
      let afterExcept : Option String :=
        match body with
        | .ok r => r
        | .error _ => none
      match env.close with
      | .ok _ => .ok afterExcept
      | .error m => .error m

/-! ## Exception-flow model of `check_advertiser_videos` (main.py lines 754-869) -/

/-- Oracle environment for the browser session of `check_advertiser_videos`:
* `launch` — `async_playwright().start()` and `chromium.launch()` (lines
  780-781); a raise leaves `browser = None`, so the `finally` block is a no-op;
* `body`   — everything from `new_context` up to the `page.evaluate` video
  count (lines 784-848): `.ok n` is the integer the in-page script returned
  (a `querySelectorAll(...).length`, hence a natural number), `.error` models
  an exception anywhere in that stretch (caught by the inner handler at line
  857 or the outer one at line 862, both returning `(False, None)`);
* `close`  — `browser.close()` in the `finally` block (lines 867-869). -/
structure VEnv where
  launch : Except String Unit
  body : Except String Nat
  close : Except String Unit

/-- Model of `check_advertiser_videos` (main.py lines 754-869).  The
hardcoded `known_video_counts` check (lines 773-776) happens before the
`try`, so a hit returns `(True, count)` without browser interaction.
Otherwise `has_videos = video_count > 0` (line 850) and the pair is returned
through the `finally` block; both `except Exception` handlers return
`(False, None)`; an exception raised by `browser.close()` in the `finally`
block propagates. -/
def check_advertiser_videos (advertiser_id : String) (env : VEnv) :
    Except String (Bool × Option Nat) :=
  match dictGetNat known_video_counts advertiser_id with
  | some n => .ok (true, some n)
  | none =>
    match env.launch with
    | .error _ => .ok (false, none)
    | .ok _ =>
      let inner : Bool × Option Nat :=
        match env.body with
        | .ok count => (decide (0 < count), some count)
        | .error _ => (false, none)
      match env.close with
      | .ok _ => .ok inner
      | .error m => .error m

/-! ## The HTTP surface (main.py lines 43-124) -/

/-- Response model `AdvertiserResponse` (main.py lines 53-56). -/
structure AdvertiserResponse where
  advertiser_google_id : Option String
  has_videos : Option Bool
  video_count : Option Nat
deriving DecidableEq

/-- Response model `PingResponse` (main.py lines 65-68). -/
structure PingResponse where
  status : String
  timestamp : String
  version : String

/-- Python exceptions relevant to the `/scrape` handler: `HTTPException`
(status code and detail) and any other exception, carried as its message. -/
inductive PyExc where
  | httpExc (status : Nat) (detail : String)
  | err (msg : String)

/-- `str(e)` for the exceptions of `PyExc`.  For a starlette/fastapi
`HTTPException`, `str` renders `"{status_code}: {detail}"` (starlette's
`HTTPException.__str__`); for a generic exception it is its message. -/
def pyExcStr : PyExc → String
  | .httpExc s d => toString s ++ ": " ++ d
  | .err m => m

/-- What FastAPI does with a route handler: a normal return becomes a 200
response with the returned body, a raised `HTTPException` becomes an HTTP
error response with its status code and detail. -/
inductive HttpOutcome (α : Type) where
  | ok (value : α)
  | httpError (status : Nat) (detail : String)
deriving DecidableEq

/-- Detail string of the 404 raised when no advertiser id is found
(main.py lines 104-107). -/
def notFoundDetail (name : String) : String :=
  "No advertiser ID found for '" ++ name ++ "'"

/-- The `try` block of `scrape_advertiser_endpoint` (main.py lines 99-116),
as a computation that either returns an `AdvertiserResponse` or raises.
`if not advertiser_id:` (line 103) is Python truthiness: `None` and `""`
both trigger the 404. -/
def scrape_body (name : String) (genv : GEnv) (venv : VEnv) :
    Except PyExc AdvertiserResponse :=
  match get_advertiser_id name genv with
  | .error m => .error (.err m)
  | .ok aid =>
    match aid with
    | none => .error (.httpExc 404 (notFoundDetail name))
    | some id =>
      if id = "" then .error (.httpExc 404 (notFoundDetail name))
      else
        match check_advertiser_videos id venv with
        | .error m => .error (.err m)
        | .ok (hv, vc) => .ok ⟨some id, some hv, vc⟩

/-- Model of the `POST /scrape` handler (main.py lines 86-124).  The name is
stripped (line 91); an empty result raises a 400 before the `try` block
(lines 93-97); any exception raised inside the `try` block — including the
404 `HTTPException` raised at line 104 — is caught by `except Exception`
(line 117) and re-raised as a 500 whose detail embeds `str(e)`
(lines 121-124). -/
def scrape_advertiser_endpoint (raw : String) (genv : GEnv) (venv : VEnv) :
    HttpOutcome AdvertiserResponse :=
  let name := py_strip raw
  if name = "" then .httpError 400 "Advertiser name cannot be empty"
  else
    match scrape_body name genv venv with
    | .ok r => .ok r
    | .error e => .httpError 500 ("Error during scraping: " ++ pyExcStr e)

/-- The `GET /ping` handler (main.py lines 74-83); the timestamp is the
current wall-clock time, passed in as an oracle. -/
def ping (now : String) : PingResponse :=
  ⟨"ok", now, "1.0.0"⟩

/-- The routes registered on the FastAPI app: exactly the two decorators
`@app.get("/ping")` (line 74) and `@app.post("/scrape")` (line 86). -/
def app_routes : List (String × String) :=
  [("GET", "/ping"), ("POST", "/scrape")]

/-! ## `extract_advertiser_id_from_url` (main.py lines 464-490)

The three `re.search` calls are embedded as left-to-right scanners over the
character list of the URL.  `re.search` returns the leftmost match, and the
`+` quantifiers are greedy, so:
* `advertiser/([A-Z0-9]+)` matches at the leftmost position where the literal
  `advertiser/` is followed by at least one character of `[A-Z0-9]`, and the
  captured group is the maximal run of such characters;
* `AR\d+` matches at the leftmost position where `A`, `R` and a digit are
  adjacent, and the match is `AR` followed by the maximal digit run;
* `[?&]id=([A-Z0-9]+)` matches at the leftmost `?` or `&` followed by the
  literal `id=` and at least one `[A-Z0-9]` character. -/

def isUpperDigit (c : Char) : Bool :=
  ('A' ≤ c && c ≤ 'Z') || ('0' ≤ c && c ≤ '9')

def isDigitCh (c : Char) : Bool :=
  '0' ≤ c && c ≤ '9'

/-- Boolean literal-prefix test on character lists (self-contained). -/
def litPre : List Char → List Char → Bool
  | [], _ => true
  | _ :: _, [] => false
  | a :: as, b :: bs => a = b && litPre as bs

/-- Boolean substring test on character lists (self-contained). -/
def litSub (pat : List Char) : List Char → Bool
  | [] => litPre pat []
  | c :: cs => litPre pat (c :: cs) || litSub pat cs

def advLit : List Char := "advertiser/".data

def idLit : List Char := "id=".data

def arLit : List Char := "AR".data

/-- `re.search` tries the pattern at every position from the left and stops
at the first position where it matches: `scanFirst hm l` applies the
head-matcher `hm` to every suffix of `l` from the left and returns the first
result. -/
def scanFirst (hm : List Char → Option (List Char)) : List Char → Option (List Char)
  | [] => hm []
  | c :: cs =>
    match hm (c :: cs) with
    | some r => some r
    | none => scanFirst hm cs

/-- Head matcher of `advertiser/([A-Z0-9]+)`: the literal must be followed by
at least one `[A-Z0-9]` character; the greedy `+` captures the maximal run. -/
def headAdv (l : List Char) : Option (List Char) :=
  if litPre advLit l then
    let cap := (l.drop advLit.length).takeWhile isUpperDigit
    if cap.isEmpty then none else some cap
  else none

/-- Head matcher of `AR\d+`: `AR` followed by at least one digit; the match
is `AR` plus the maximal digit run. -/
def headAR (l : List Char) : Option (List Char) :=
  if litPre arLit l then
    let cap := (l.drop arLit.length).takeWhile isDigitCh
    if cap.isEmpty then none else some (arLit ++ cap)
  else none

/-- Head matcher of `[?&]id=([A-Z0-9]+)`: a `?` or `&`, the literal `id=`,
then at least one `[A-Z0-9]` character; the capture is the maximal run. -/
def headId (l : List Char) : Option (List Char) :=
  match l with
  | [] => none
  | c :: cs =>
    if (c = '?' || c = '&') && litPre idLit cs then
      let cap := (cs.drop idLit.length).takeWhile isUpperDigit
      if cap.isEmpty then none else some cap
    else none

/-- Scanner for `re.search(r'advertiser/([A-Z0-9]+)', url)` (line 469):
captured group of the leftmost match. -/
def findAdvAux (l : List Char) : Option (List Char) :=
  scanFirst headAdv l

/-- Scanner for `re.search(r'AR\d+', url)` (line 476): the whole leftmost
match. -/
def findARAux (l : List Char) : Option (List Char) :=
  scanFirst headAR l

/-- Scanner for `re.search(r'[?&]id=([A-Z0-9]+)', url)` (line 483): captured
group of the leftmost match. -/
def findIdAux (l : List Char) : Option (List Char) :=
  scanFirst headId l

/-- Model of `extract_advertiser_id_from_url` (main.py lines 464-490): the
three patterns are tried in order and the first match is returned; `None`
is returned when all three fail. -/
def extract_advertiser_id_from_url (url : String) : Option String :=
  match findAdvAux url.data with
  | some cap => some ⟨cap⟩
  | none =>
    match findARAux url.data with
    | some m => some ⟨m⟩
    | none =>
      match findIdAux url.data with
      | some cap => some ⟨cap⟩
      | none => none

/-! Specification-side pattern predicates: a regex pattern "matches" the URL
iff some suffix of the character list starts with the required shape. -/

/-- `advertiser/([A-Z0-9]+)` matches at the head of `l`. -/
def advHere (l : List Char) : Prop :=
  ∃ d rest, l = advLit ++ d :: rest ∧ isUpperDigit d = true

/-- `advertiser/([A-Z0-9]+)` matches somewhere in `l`. -/
def advPattern (l : List Char) : Prop :=
  ∃ i, advHere (l.drop i)

/-- `AR\d+` matches at the head of `l`. -/
def arHere (l : List Char) : Prop :=
  ∃ d rest, l = 'A' :: 'R' :: d :: rest ∧ isDigitCh d = true

/-- `AR\d+` matches somewhere in `l`. -/
def arPattern (l : List Char) : Prop :=
  ∃ i, arHere (l.drop i)

/-- `[?&]id=([A-Z0-9]+)` matches at the head of `l`. -/
def idHere (l : List Char) : Prop :=
  ∃ q d rest, l = q :: (idLit ++ d :: rest) ∧ (q = '?' ∨ q = '&') ∧
    isUpperDigit d = true

/-- `[?&]id=([A-Z0-9]+)` matches somewhere in `l`. -/
def idPattern (l : List Char) : Prop :=
  ∃ i, idHere (l.drop i)

/-! ## The URL-polling retry loops (main.py lines 216-237 and 341-354)

Strategy 1's "APPROACH 1" and the loop inside Strategy 2 both poll
`window.location.href` up to three times (`for attempt in range(3)`), but
they differ: strategy 1's loop `break`s as soon as an attempt reports a
changed URL (line 232), even when id extraction from that URL fails, while
strategy 2's loop has no `break` and keeps re-attempting after a changed
URL whose extraction failed.  They are therefore modelled separately. -/

/-- Strategy 1's retry loop (main.py lines 216-237): each attempt evaluates
`window.location.href` (the `probe`; `.error` models the `except Error`
branch at line 233).  When the reported URL is truthy and differs from
`pre_search_url`, the loop either returns the extracted advertiser id or —
if extraction fails — `break`s with nothing (line 232); otherwise it waits
2 seconds and re-attempts. -/
def urlCheckLoop (probe : Nat → Except String String) (preUrl : String) :
    Nat → Nat → Option String
  | _, 0 => none
  | attempt, remaining + 1 =>
    match probe attempt with
    | .ok current =>
      if current ≠ "" ∧ current ≠ preUrl then
        extract_advertiser_id_from_url current
      else urlCheckLoop probe preUrl (attempt + 1) remaining
    | .error _ => urlCheckLoop probe preUrl (attempt + 1) remaining

/-- Strategy 1's loop as written in the source: `for attempt in range(3)`
(line 216). -/
def urlCheck3 (probe : Nat → Except String String) (preUrl : String) :
    Option String :=
  urlCheckLoop probe preUrl 0 3

/-- Strategy 2's retry loop (main.py lines 341-354): same probing, but with
no `break` — when an attempt reports a changed URL whose extraction yields
nothing truthy, the loop waits and re-attempts, so a later attempt's
successfully extracted id is returned.  (`extract_advertiser_id_from_url`
never returns `some ""` — every capture has at least one character — so the
`match` on its result models the `if advertiser_id:` truthiness test at
line 348.) -/
def urlCheckLoopS2 (probe : Nat → Except String String) (preUrl : String) :
    Nat → Nat → Option String
  | _, 0 => none
  | attempt, remaining + 1 =>
    match probe attempt with
    | .ok current =>
      if current ≠ "" ∧ current ≠ preUrl then
        match extract_advertiser_id_from_url current with
        | some id => some id
        | none => urlCheckLoopS2 probe preUrl (attempt + 1) remaining
      else urlCheckLoopS2 probe preUrl (attempt + 1) remaining
    | .error _ => urlCheckLoopS2 probe preUrl (attempt + 1) remaining

/-- Strategy 2's loop as written in the source: `for attempt in range(3)`
(line 341). -/
def urlCheck3S2 (probe : Nat → Except String String) (preUrl : String) :
    Option String :=
  urlCheckLoopS2 probe preUrl 0 3

/-- Specification-side view of strategy 1's polling loop: the first outcome
in the list that is a successfully-read URL which is non-empty and
different from `preUrl`; failed reads and unchanged URLs are skipped. -/
def firstChangedUrl (preUrl : String) : List (Except String String) → Option String
  | [] => none
  | .ok u :: rest =>
    if u ≠ "" ∧ u ≠ preUrl then some u else firstChangedUrl preUrl rest
  | .error _ :: rest => firstChangedUrl preUrl rest

/-- A probe whose every attempt reports the starting URL unchanged. -/
def c8ProbeA : Nat → Except String String := fun _ =>
  .ok "https://adstransparency.google.com/"

/-- A probe that agrees with `c8ProbeA` on the first attempt (no URL change)
but reports a changed URL on the later attempts. -/
def c8ProbeB : Nat → Except String String := fun n =>
  if n = 0 then .ok "https://adstransparency.google.com/"
  else .ok "https://adstransparency.google.com/advertiser/AR123"

/-! ## DOM model for the search-input location of `get_page_content`
(main.py lines 526-633)

The parsed page (`BeautifulSoup(content, 'html.parser')`) is modelled as a
tree of elements and text nodes; attributes are an association list (the
`class` attribute keeps its literal string value, read token-wise where
BeautifulSoup treats it as multi-valued). -/

inductive DomNode where
  | text (s : String)
  | elem (tag : String) (attrs : List (String × String)) (children : List DomNode)

/-- `tag.string` in BeautifulSoup: the string of an element with a single
child, following single-child chains down to a text node; `None` otherwise. -/
def domString : DomNode → Option String
  | .text s => some s
  | .elem _ _ [c] => domString c
  | .elem _ _ _ => none

/-- `str(tag)` for a void element such as `<input ...>`: the opening tag
with its attributes, self-closed, as BeautifulSoup renders an empty
element. -/
def renderAttrs : List (String × String) → String
  | [] => ""
  | (k, v) :: rest => " " ++ k ++ "=\"" ++ v ++ "\"" ++ renderAttrs rest

def renderElem : DomNode → String
  | .text s => s
  | .elem t attrs _ => "<" ++ t ++ renderAttrs attrs ++ "/>"

def placeholderText : String := "Search by advertiser or website name"

/-- The span matcher of approach 1 (lines 537-540): a `span` whose
BeautifulSoup `.string` exists (is not `None`) and contains the placeholder
text. -/
def isPlaceholderSpan (n : DomNode) : Bool :=
  match n with
  | .elem t _ _ =>
    t = "span" &&
      (match domString n with
       | some s => litSub placeholderText.data s.data
       | none => false)
  | .text _ => false

mutual
/-- Approach 1's span walk (lines 542-544): `find_all` returns the matching
spans in document (pre-order) order, and `span.find_parent()` is the
immediate parent, so each matching span child contributes its parent node. -/
def spanParents : DomNode → List DomNode
  | .text _ => []
  | .elem t a cs => spanParentsUnder (.elem t a cs) cs
termination_by n => sizeOf n

/-- Children walk for `spanParents`. -/
def spanParentsUnder (p : DomNode) : List DomNode → List DomNode
  | [] => []
  | c :: rest =>
    (if isPlaceholderSpan c then [p] else []) ++ spanParents c ++ spanParentsUnder p rest
termination_by l => sizeOf l
end

mutual
/-- `soup.find_all(pred)`: the matching nodes of the tree in document
(pre-order) order. -/
def findAllNodes (p : DomNode → Bool) : DomNode → List DomNode
  | .text _ => []
  | .elem t a cs =>
    (if p (.elem t a cs) then [.elem t a cs] else []) ++ findAllNodesUnder p cs
termination_by n => sizeOf n

/-- Forest version of `findAllNodes`. -/
def findAllNodesUnder (p : DomNode → Bool) : List DomNode → List DomNode
  | [] => []
  | c :: rest => findAllNodes p c ++ findAllNodesUnder p rest
termination_by l => sizeOf l
end

/-- `tag.find('input')` over a forest: the first `input` element in document
(pre-order) order. -/
def findInputUnder : List DomNode → Option DomNode
  | [] => none
  | .text _ :: rest => findInputUnder rest
  | .elem t a cs :: rest =>
    if t = "input" then some (.elem t a cs)
    else
      match findInputUnder cs with
      | some r => some r
      | none => findInputUnder rest

/-- `tag.find('input')`: first `input` among the strict descendants. -/
def findInputDesc : DomNode → Option DomNode
  | .text _ => none
  | .elem _ _ cs => findInputUnder cs

/-- `tag.find(string=f)` where `f s = s and kw in s.lower()`: is there a
descendant text node whose lowercased content contains `kw`? -/
def hasTextWithUnder (kw : List Char) : List DomNode → Bool
  | [] => false
  | .text s :: rest => litSub kw (py_lower s).data || hasTextWithUnder kw rest
  | .elem _ _ cs :: rest => hasTextWithUnder kw cs || hasTextWithUnder kw rest

/-- Whitespace-token view of a `class` attribute value (BeautifulSoup stores
`class` as the list of whitespace-separated class names and applies an
attribute function to each). -/
def classTokensAux : List Char → List Char → List (List Char)
  | acc, [] => if acc.isEmpty then [] else [acc.reverse]
  | acc, c :: cs =>
    if c = ' ' then
      if acc.isEmpty then classTokensAux [] cs else acc.reverse :: classTokensAux [] cs
    else classTokensAux (c :: acc) cs

def classTokens (l : List Char) : List (List Char) :=
  classTokensAux [] l

/-- Approach 2's matcher (lines 555-558): an `input` with a class attribute
one of whose class names contains `search`, `query` or `input-area`. -/
def isInputWithSearchClass (n : DomNode) : Bool :=
  match n with
  | .elem t attrs _ =>
    t = "input" &&
      (match dictGet attrs "class" with
       | none => false
       | some v =>
         (classTokens v.data).any fun tok =>
           litSub "search".data tok || litSub "query".data tok ||
             litSub "input-area".data tok)
  | .text _ => false

/-- Approach 3's matcher (lines 565-567): any element whose `role` attribute
is `search`, `searchbox` or `combobox`. -/
def hasSearchRole (n : DomNode) : Bool :=
  match n with
  | .elem _ attrs _ =>
    (match dictGet attrs "role" with
     | some r => r = "search" || r = "searchbox" || r = "combobox"
     | none => false)
  | .text _ => false

/-- Approach 4's matcher (lines 581-584): a `div`, `section` or `form`
containing a text node that mentions the keyword. -/
def isSearchTextContainer (kw : List Char) (n : DomNode) : Bool :=
  match n with
  | .elem t _ cs => (t = "div" || t = "section" || t = "form") && hasTextWithUnder kw cs
  | .text _ => false

def searchKeywords : List String := ["search", "find", "lookup"]

/-- Approach 1 (lines 536-550): first placeholder span whose parent holds an
`input`, rendered with `str(...)`. -/
def approach1 (root : DomNode) : Option String :=
  ((spanParents root).findSome? findInputDesc).map renderElem

/-- Approach 2 (lines 552-561): `search_inputs[0]` of the class-based
`find_all`. -/
def approach2 (root : DomNode) : Option String :=
  (findAllNodes isInputWithSearchClass root).head?.map renderElem

/-- Approach 3 (lines 563-574): first role-matching element holding an
`input`. -/
def approach3 (root : DomNode) : Option String :=
  ((findAllNodes hasSearchRole root).findSome? findInputDesc).map renderElem

/-- Approach 4 (lines 576-591): the keyword passes are concatenated in order
(`search_containers.extend(...)`), then the first container holding an
`input` wins. -/
def approach4 (root : DomNode) : Option String :=
  (((searchKeywords.map fun kw => findAllNodes (isSearchTextContainer kw.data) root).flatten).findSome?
    findInputDesc).map renderElem

/-- The search-input selection of `get_page_content` (main.py lines
534-633): `search_input` starts out empty, each approach runs only when all
earlier ones left it empty, the fifth attempt is the in-page script
evaluation (modelled by the oracle `jsOracle`, the outerHTML it returned or
`""`), and the literal `"No search input found"` is the final fallback
(line 633). -/
def find_search_input (root : DomNode) (jsOracle : String) : String :=
  let s1 := (approach1 root).getD ""
  let s2 := if s1 = "" then (approach2 root).getD "" else s1
  let s3 := if s2 = "" then (approach3 root).getD "" else s2
  let s4 := if s3 = "" then (approach4 root).getD "" else s3
  let s5 := if s4 = "" then jsOracle else s4
  if s5 = "" then "No search input found" else s5

/-- Specification-side view of a first-match-wins cascade: the first
non-empty string in the list, or the default. -/
def firstNonEmpty (dflt : String) : List String → String
  | [] => dflt
  | s :: rest => if s = "" then firstNonEmpty dflt rest else s

/-- A page on which the placeholder-text heuristic (approach 1) and the
class-selector heuristic (approach 2) locate different inputs. -/
def c7Dom : DomNode :=
  .elem "html" []
    [.elem "div" []
      [.elem "span" [] [.text "Search by advertiser or website name"],
       .elem "input" [("name", "first")] []],
     .elem "input" [("class", "search-box")] []]

/-! ## Timeout configuration (main.py lines 33-35, 157, 790) -/

/-- Accumulated value of a decimal digit string, as Python's `int` computes
it. -/
def digitsVal (l : List Char) : Nat :=
  l.foldl (fun acc c => acc * 10 + (c.toNat - '0'.toNat)) 0

/-- Model of Python `int(s)` for strings: surrounding whitespace is allowed,
then an optional sign and at least one ASCII digit; anything else raises
`ValueError`, modelled as `none`. -/
def pyIntOfStr (s : String) : Option Int :=
  match (py_strip s).data with
  | '-' :: rest =>
    if rest.isEmpty then none
    else if rest.all isDigitCh then some (-(digitsVal rest : Int)) else none
  | '+' :: rest =>
    if rest.isEmpty then none
    else if rest.all isDigitCh then some (digitsVal rest) else none
  | l =>
    if l.isEmpty then none
    else if l.all isDigitCh then some (digitsVal l) else none

/-- `NAVIGATION_TIMEOUT = int(os.environ.get('NAVIGATION_TIMEOUT', 60000))`
(main.py line 34), over the process environment; `none` models the
`ValueError` crash on a non-numeric setting. -/
def NAVIGATION_TIMEOUT (osEnv : String → Option String) : Option Int :=
  match osEnv "NAVIGATION_TIMEOUT" with
  | none => some 60000
  | some s => pyIntOfStr s

/-- `WAIT_TIMEOUT = int(os.environ.get('WAIT_TIMEOUT', 30000))` (main.py
line 35). -/
def WAIT_TIMEOUT (osEnv : String → Option String) : Option Int :=
  match osEnv "WAIT_TIMEOUT" with
  | none => some 30000
  | some s => pyIntOfStr s

/-- `context.set_default_timeout(90000)` in `get_advertiser_id`
(main.py line 157). -/
def get_advertiser_id_context_timeout : Nat := 90000

/-- `context.set_default_timeout(60000)` in `check_advertiser_videos`
(main.py line 790). -/
def check_advertiser_videos_context_timeout : Nat := 60000

/-- An environment under which `get_advertiser_id` propagates an exception:
the scraping body raises and so does `browser.close()` in the `finally`
block. -/
def c3CexEnv : GEnv :=
  ⟨.ok (), .error "boom", .ok none, .ok none, .error "browser close failed"⟩

/-! ### Correctness of the scanners with respect to the pattern predicates -/

theorem litPre_iff (p l : List Char) : litPre p l = true ↔ ∃ t, l = p ++ t := by
  induction p generalizing l with
  | nil => simp [litPre]
  | cons a as ih =>
    cases l with
    | nil => simp [litPre]
    | cons b bs =>
      simp only [litPre, Bool.and_eq_true, decide_eq_true_eq, ih,
        List.cons_append, List.cons.injEq]
      constructor
      · rintro ⟨rfl, t, rfl⟩
        exact ⟨t, rfl, rfl⟩
      · rintro ⟨t, rfl, rfl⟩
        exact ⟨rfl, t, rfl⟩

theorem takeWhile_not_isEmpty (p : Char → Bool) (l : List Char) :
    ((l.takeWhile p).isEmpty = false) ↔ ∃ d rest, l = d :: rest ∧ p d = true := by
  cases l with
  | nil => simp [List.takeWhile]
  | cons d rest =>
    by_cases h : p d = true
    · simp [List.takeWhile_cons, h]
    · simp [List.takeWhile_cons, h]

theorem scanFirst_eq_none_iff (hm : List Char → Option (List Char)) (l : List Char) :
    scanFirst hm l = none ↔ ∀ i, hm (l.drop i) = none := by
  induction l with
  | nil =>
    simp only [scanFirst, List.drop_nil]
    exact ⟨fun h _ => h, fun h => h 0⟩
  | cons c cs ih =>
    constructor
    · intro h i
      cases hhm : hm (c :: cs) with
      | some r => rw [scanFirst, hhm] at h; cases h
      | none =>
        rw [scanFirst, hhm] at h
        cases i with
        | zero => exact hhm
        | succ n => exact (ih.mp h) n
    · intro h
      have h0 : hm (c :: cs) = none := h 0
      rw [scanFirst, h0]
      exact ih.mpr fun n => h (n + 1)

theorem advHere_iff (l : List Char) :
    advHere l ↔ litPre advLit l = true ∧
      ((l.drop advLit.length).takeWhile isUpperDigit).isEmpty = false := by
  constructor
  · rintro ⟨d, rest, rfl, hd⟩
    refine ⟨(litPre_iff _ _).mpr ⟨d :: rest, rfl⟩, ?_⟩
    rw [List.drop_left]
    simp [List.takeWhile_cons, hd]
  · rintro ⟨h1, h2⟩
    obtain ⟨t, rfl⟩ := (litPre_iff _ _).mp h1
    rw [List.drop_left] at h2
    obtain ⟨d, rest, rfl, hd⟩ := (takeWhile_not_isEmpty _ _).mp h2
    exact ⟨d, rest, rfl, hd⟩

theorem headAdv_eq_none_iff (l : List Char) : headAdv l = none ↔ ¬ advHere l := by
  rw [advHere_iff]
  unfold headAdv
  cases h1 : litPre advLit l with
  | false => simp [h1]
  | true =>
    cases h2 : ((l.drop advLit.length).takeWhile isUpperDigit).isEmpty with
    | false => simp [h1, h2]
    | true => simp [h1, h2]

theorem arHere_iff (l : List Char) :
    arHere l ↔ litPre arLit l = true ∧
      ((l.drop arLit.length).takeWhile isDigitCh).isEmpty = false := by
  constructor
  · rintro ⟨d, rest, rfl, hd⟩
    refine ⟨(litPre_iff _ _).mpr ⟨d :: rest, rfl⟩, ?_⟩
    rw [show ('A' :: 'R' :: d :: rest : List Char) = arLit ++ d :: rest from rfl,
      List.drop_left]
    simp [List.takeWhile_cons, hd]
  · rintro ⟨h1, h2⟩
    obtain ⟨t, rfl⟩ := (litPre_iff _ _).mp h1
    rw [List.drop_left] at h2
    obtain ⟨d, rest, rfl, hd⟩ := (takeWhile_not_isEmpty _ _).mp h2
    exact ⟨d, rest, rfl, hd⟩

theorem headAR_eq_none_iff (l : List Char) : headAR l = none ↔ ¬ arHere l := by
  rw [arHere_iff]
  unfold headAR
  cases h1 : litPre arLit l with
  | false => simp [h1]
  | true =>
    cases h2 : ((l.drop arLit.length).takeWhile isDigitCh).isEmpty with
    | false => simp [h1, h2]
    | true => simp [h1, h2]

theorem idHere_nil : ¬ idHere ([] : List Char) := by
  rintro ⟨q, d, rest, h, -⟩
  cases h

theorem idHere_cons_iff (c : Char) (cs : List Char) :
    idHere (c :: cs) ↔ ((c = '?' || c = '&') && litPre idLit cs) = true ∧
      ((cs.drop idLit.length).takeWhile isUpperDigit).isEmpty = false := by
  constructor
  · rintro ⟨q, d, rest, hcc, hq, hd⟩
    injection hcc with e1 e2
    subst e1
    subst e2
    constructor
    · rw [Bool.and_eq_true]
      refine ⟨?_, (litPre_iff _ _).mpr ⟨d :: rest, rfl⟩⟩
      rcases hq with rfl | rfl <;> simp
    · rw [List.drop_left]
      simp [List.takeWhile_cons, hd]
  · rintro ⟨h1, h2⟩
    rw [Bool.and_eq_true] at h1
    obtain ⟨t, rfl⟩ := (litPre_iff _ _).mp h1.2
    rw [List.drop_left] at h2
    obtain ⟨d, rest, rfl, hd⟩ := (takeWhile_not_isEmpty _ _).mp h2
    refine ⟨c, d, rest, rfl, ?_, hd⟩
    have hq := h1.1
    simp only [Bool.or_eq_true, decide_eq_true_eq] at hq
    exact hq

theorem headId_eq_none_iff (l : List Char) : headId l = none ↔ ¬ idHere l := by
  cases l with
  | nil => simp [headId, idHere_nil]
  | cons c cs =>
    rw [idHere_cons_iff]
    unfold headId
    cases hq : ((c = '?' || c = '&') && litPre idLit cs) with
    | false => simp [hq]
    | true =>
      cases h2 : ((cs.drop idLit.length).takeWhile isUpperDigit).isEmpty with
      | false => simp [hq, h2]
      | true => simp [hq, h2]

theorem findAdvAux_eq_none_iff (l : List Char) :
    findAdvAux l = none ↔ ¬ advPattern l := by
  unfold findAdvAux advPattern
  rw [scanFirst_eq_none_iff]
  push_neg
  exact forall_congr' fun i => headAdv_eq_none_iff _

theorem findARAux_eq_none_iff (l : List Char) :
    findARAux l = none ↔ ¬ arPattern l := by
  unfold findARAux arPattern
  rw [scanFirst_eq_none_iff]
  push_neg
  exact forall_congr' fun i => headAR_eq_none_iff _

theorem findIdAux_eq_none_iff (l : List Char) :
    findIdAux l = none ↔ ¬ idPattern l := by
  unfold findIdAux idPattern
  rw [scanFirst_eq_none_iff]
  push_neg
  exact forall_congr' fun i => headId_eq_none_iff _

/-! ### Characterisation of the two hardcoded tables -/

theorem known_ids_char (k v : String) :
    dictGet known_ids k = some v ↔ k = "adidas" ∧ v = "AR14017378248766259201" := by
  by_cases hk : k = "adidas"
  · subst hk
    unfold known_ids dictGet
    rw [if_pos rfl]
    simp [eq_comm]
  · unfold known_ids dictGet
    rw [if_neg hk]
    simp [dictGet, hk]

theorem known_video_counts_char (k : String) (v : Nat) :
    dictGetNat known_video_counts k = some v ↔
      k = "AR14017378248766259201" ∧ v = 34 := by
  by_cases hk : k = "AR14017378248766259201"
  · subst hk
    unfold known_video_counts dictGetNat
    rw [if_pos rfl]
    simp [eq_comm]
  · unfold known_video_counts dictGetNat
    rw [if_neg hk]
    simp [dictGetNat, hk]

theorem get_advertiser_id_known (name : String) (genv : GEnv)
    (h : py_lower name = "adidas") :
    get_advertiser_id name genv = .ok (some "AR14017378248766259201") := by
  unfold get_advertiser_id
  rw [h]
  rfl

/-! ### The claims -/

/-- C1: every `/scrape` request whose advertiser name, stripped of
surrounding whitespace, lowercases to `"adidas"` is answered with exactly
`advertiser_google_id = "AR14017378248766259201"`, `has_videos = true`,
`video_count = 34`, for every possible behaviour of the browser oracles —
i.e. entirely from the two hardcoded tables, with no browser interaction. -/
theorem claim_C1_adidas_hardcoded (raw : String) (genv : GEnv) (venv : VEnv)
    (h : py_lower (py_strip raw) = "adidas") :
    scrape_advertiser_endpoint raw genv venv =
      .ok ⟨some "AR14017378248766259201", some true, some 34⟩ := by
  have hne : py_strip raw ≠ "" := by
    intro h0
    rw [h0] at h
    revert h
    decide
  unfold scrape_advertiser_endpoint
  rw [if_neg hne]
  unfold scrape_body
  rw [get_advertiser_id_known _ _ h]
  rfl

/-- Witness for C1 at the concrete request `"  AdIdAs "`. -/
theorem claim_C1_witness :
    scrape_advertiser_endpoint "  AdIdAs "
      ⟨.ok (), .ok (), .ok none, .ok none, .ok ()⟩ ⟨.ok (), .ok 0, .ok ()⟩ =
      .ok ⟨some "AR14017378248766259201", some true, some 34⟩ :=
  claim_C1_adidas_hardcoded "  AdIdAs " _ _ (by decide)

/-- C2: the two tables are literal constants with exactly one entry each —
`known_ids` maps exactly `"adidas"` to `"AR14017378248766259201"` and
`known_video_counts` maps exactly that identifier to `34`; in this pure
embedding they are immutable definitions, so every call observes the same
two mappings. -/
theorem claim_C2_static_tables :
    (∀ k v, dictGet known_ids k = some v ↔
        k = "adidas" ∧ v = "AR14017378248766259201")
  ∧ (∀ k v, dictGetNat known_video_counts k = some v ↔
        k = "AR14017378248766259201" ∧ v = 34)
  ∧ known_ids.length = 1 ∧ known_video_counts.length = 1 :=
  ⟨known_ids_char, known_video_counts_char, rfl, rfl⟩

/-- C3 counterexample: when the scraping body raises and `browser.close()`
in the `finally` block also raises, `get_advertiser_id` does not return
`None` — the close exception propagates (Python replaces the pending
handled result with the exception raised by the `finally` block). -/
theorem claim_C3_counterexample :
    get_advertiser_id "nike" c3CexEnv = .error "browser close failed" ∧
    get_advertiser_id "nike" c3CexEnv ≠ .ok none := by
  refine ⟨rfl, fun hc => ?_⟩
  rw [show get_advertiser_id "nike" c3CexEnv = .error "browser close failed" from rfl] at hc
  exact Except.noConfusion hc

/-- C3 (amended): provided `browser.close()` in the `finally` block does not
itself raise, `get_advertiser_id` never propagates an exception and returns
`None` when its scraping body raises; `check_advertiser_videos` likewise
never propagates and returns `(False, None)` when its body raises; and any
exception that reaches the `/scrape` handler's `try` block is converted
into an HTTP 500 whose detail embeds the exception message. -/
theorem claim_C3_amended_broad_catch :
    (∀ name env m, env.close = Except.ok () →
        get_advertiser_id name env ≠ .error m)
  ∧ (∀ name env m, dictGet known_ids (py_lower name) = none →
        env.setup = Except.error m → env.close = Except.ok () →
        get_advertiser_id name env = .ok none)
  ∧ (∀ id env m, env.close = Except.ok () →
        check_advertiser_videos id env ≠ .error m)
  ∧ (∀ id env m, dictGetNat known_video_counts id = none →
        env.launch = Except.ok () → env.body = Except.error m →
        env.close = Except.ok () →
        check_advertiser_videos id env = .ok (false, none))
  ∧ (∀ raw genv venv m, py_strip raw ≠ "" →
        get_advertiser_id (py_strip raw) genv = .error m →
        scrape_advertiser_endpoint raw genv venv =
          .httpError 500 ("Error during scraping: " ++ m)) := by
  refine ⟨?_, ?_, ?_, ?_, ?_⟩
  · intro name env m hclose
    simp only [get_advertiser_id]
    cases hk : dictGet known_ids (py_lower name) with
    | some id => simp
    | none =>
      cases hs : env.start with
      | error e => simp
      | ok u => simp [hclose]
  · intro name env m hk hsetup hclose
    simp only [get_advertiser_id]
    rw [hk, hsetup, hclose]
    cases hs : env.start with
    | error e => rfl
    | ok u => rfl
  · intro id env m hclose
    simp only [check_advertiser_videos]
    cases hk : dictGetNat known_video_counts id with
    | some n => simp
    | none =>
      cases hl : env.launch with
      | error e => simp
      | ok u => simp [hclose]
  · intro id env m hk hlaunch hbody hclose
    simp only [check_advertiser_videos]
    rw [hk, hlaunch, hbody, hclose]
  · intro raw genv venv m hne hget
    simp only [scrape_advertiser_endpoint]
    rw [if_neg hne]
    simp only [scrape_body, hget]
    rfl

/-- Witness for the amended C3: a body exception with a clean close yields
`.ok none`. -/
theorem claim_C3_witness :
    get_advertiser_id "nike"
      ⟨Except.ok (), Except.error "boom", Except.ok none, Except.ok none, Except.ok ()⟩ =
      .ok none :=
  claim_C3_amended_broad_catch.2.1 "nike" _ "boom" rfl rfl rfl

/-- C4: a non-empty name for which no advertiser id is found yields HTTP
500, not 404 — the 404 `HTTPException` is swallowed by the broad `except`
and re-raised as a 500 whose detail embeds the stringified 404. -/
theorem claim_C4_not_found_is_500 (raw : String) (genv : GEnv) (venv : VEnv)
    (h1 : py_strip raw ≠ "")
    (h2 : get_advertiser_id (py_strip raw) genv = .ok none) :
    scrape_advertiser_endpoint raw genv venv =
        .httpError 500 ("Error during scraping: " ++
          pyExcStr (.httpExc 404 (notFoundDetail (py_strip raw))))
      ∧ ∀ d, scrape_advertiser_endpoint raw genv venv ≠ .httpError 404 d := by
  have hmain : scrape_advertiser_endpoint raw genv venv =
      .httpError 500 ("Error during scraping: " ++
        pyExcStr (.httpExc 404 (notFoundDetail (py_strip raw)))) := by
    simp only [scrape_advertiser_endpoint]
    rw [if_neg h1]
    simp only [scrape_body, h2]
  refine ⟨hmain, fun d hc => ?_⟩
  rw [hmain] at hc
  injection hc with hs hd
  exact absurd hs (by decide)

/-- Witness for C4 at the concrete request `"nike"` with a browser session
that finds nothing. -/
theorem claim_C4_witness :
    scrape_advertiser_endpoint "nike"
      ⟨.ok (), .ok (), .ok none, .ok none, .ok ()⟩ ⟨.ok (), .ok 0, .ok ()⟩ =
      .httpError 500 ("Error during scraping: " ++
        pyExcStr (.httpExc 404 (notFoundDetail (py_strip "nike")))) :=
  (claim_C4_not_found_is_500 "nike"
    ⟨.ok (), .ok (), .ok none, .ok none, .ok ()⟩ ⟨.ok (), .ok 0, .ok ()⟩
    (by decide) rfl).1

/-- C5: `extract_advertiser_id_from_url` is a pure total function on
strings that checks the three patterns in fixed precedence order —
`advertiser/([A-Z0-9]+)`, then `AR\d+`, then `[?&]id=([A-Z0-9]+)` — returns
the first pattern's match, and returns `none` iff none of the three
patterns matches. -/
theorem claim_C5_extract_url (url : String) :
    (extract_advertiser_id_from_url url = none ↔
        ¬ advPattern url.data ∧ ¬ arPattern url.data ∧ ¬ idPattern url.data)
  ∧ (advPattern url.data → ∃ cap, findAdvAux url.data = some cap ∧
        extract_advertiser_id_from_url url = some ⟨cap⟩)
  ∧ (¬ advPattern url.data → arPattern url.data →
        ∃ m, findARAux url.data = some m ∧
          extract_advertiser_id_from_url url = some ⟨m⟩)
  ∧ (¬ advPattern url.data → ¬ arPattern url.data → idPattern url.data →
        ∃ cap, findIdAux url.data = some cap ∧
          extract_advertiser_id_from_url url = some ⟨cap⟩) := by
  refine ⟨⟨?_, ?_⟩, ?_, ?_, ?_⟩
  · intro h
    cases ha : findAdvAux url.data with
    | some cap => simp [extract_advertiser_id_from_url, ha] at h
    | none =>
      cases hb : findARAux url.data with
      | some m => simp [extract_advertiser_id_from_url, ha, hb] at h
      | none =>
        cases hc : findIdAux url.data with
        | some cap => simp [extract_advertiser_id_from_url, ha, hb, hc] at h
        | none =>
          exact ⟨(findAdvAux_eq_none_iff _).mp ha, (findARAux_eq_none_iff _).mp hb,
            (findIdAux_eq_none_iff _).mp hc⟩
  · rintro ⟨ha, hb, hc⟩
    unfold extract_advertiser_id_from_url
    rw [(findAdvAux_eq_none_iff _).mpr ha, (findARAux_eq_none_iff _).mpr hb,
      (findIdAux_eq_none_iff _).mpr hc]
  · intro ha
    cases hfa : findAdvAux url.data with
    | none => exact absurd ha ((findAdvAux_eq_none_iff _).mp hfa)
    | some cap =>
      exact ⟨cap, rfl, by simp [extract_advertiser_id_from_url, hfa]⟩
  · intro ha hb
    have hfa : findAdvAux url.data = none := (findAdvAux_eq_none_iff _).mpr ha
    cases hfb : findARAux url.data with
    | none => exact absurd hb ((findARAux_eq_none_iff _).mp hfb)
    | some m =>
      exact ⟨m, rfl, by simp [extract_advertiser_id_from_url, hfa, hfb]⟩
  · intro ha hb hc
    have hfa : findAdvAux url.data = none := (findAdvAux_eq_none_iff _).mpr ha
    have hfb : findARAux url.data = none := (findARAux_eq_none_iff _).mpr hb
    cases hfc : findIdAux url.data with
    | none => exact absurd hc ((findIdAux_eq_none_iff _).mp hfc)
    | some cap =>
      exact ⟨cap, rfl, by simp [extract_advertiser_id_from_url, hfa, hfb, hfc]⟩

/-- Witness for C5 at `"https://x.test?id=AB12"`: only the query-parameter
pattern matches and its capture is returned. -/
theorem claim_C5_witness :
    ∃ cap, findIdAux ("https://x.test?id=AB12").data = some cap ∧
      extract_advertiser_id_from_url "https://x.test?id=AB12" = some ⟨cap⟩ :=
  (claim_C5_extract_url "https://x.test?id=AB12").2.2.2
    ((findAdvAux_eq_none_iff _).mp (by decide))
    ((findARAux_eq_none_iff _).mp (by decide))
    ⟨14, '?', 'A', "B12".data, by decide, Or.inl rfl, by decide⟩

/-- C6: whenever `check_advertiser_videos` returns a pair, `has_videos =
True` forces the count to be a strictly positive integer — never
`(True, None)`, never `(True, 0)` — and the handled error paths return
`(False, None)`. -/
theorem claim_C6_video_invariant :
    (∀ id env b vc, check_advertiser_videos id env = .ok (b, vc) → b = true →
        ∃ n, vc = some n ∧ 0 < n)
  ∧ (∀ id env m, dictGetNat known_video_counts id = none →
        env.launch = Except.ok () → env.body = Except.error m →
        env.close = Except.ok () →
        check_advertiser_videos id env = .ok (false, none))
  ∧ (∀ id env m, dictGetNat known_video_counts id = none →
        env.launch = Except.error m →
        check_advertiser_videos id env = .ok (false, none)) := by
  refine ⟨?_, ?_, ?_⟩
  · intro id env b vc hok hb
    subst hb
    unfold check_advertiser_videos at hok
    cases hk : dictGetNat known_video_counts id with
    | some n =>
      have hn34 : n = 34 := ((known_video_counts_char id n).mp hk).2
      rw [hk] at hok
      have hok' : (Except.ok ((true, some n) : Bool × Option Nat) :
          Except String (Bool × Option Nat)) = Except.ok (true, vc) := hok
      injection hok' with hpair
      injection hpair with h1 h2
      exact ⟨n, h2.symm, by omega⟩
    | none =>
      rw [hk] at hok
      cases hl : env.launch with
      | error e =>
        rw [hl] at hok
        have hok' : (Except.ok ((false, none) : Bool × Option Nat) :
            Except String (Bool × Option Nat)) = Except.ok (true, vc) := hok
        injection hok' with hpair
        injection hpair with h1 h2
        exact absurd h1 (by decide)
      | ok u =>
        rw [hl] at hok
        cases hbody : env.body with
        | ok count =>
          rw [hbody] at hok
          cases hc : env.close with
          | error m =>
            rw [hc] at hok
            exact Except.noConfusion hok
          | ok v =>
            rw [hc] at hok
            have hok' : (Except.ok ((decide (0 < count), some count) : Bool × Option Nat) :
                Except String (Bool × Option Nat)) = Except.ok (true, vc) := hok
            injection hok' with hpair
            injection hpair with h1 h2
            exact ⟨count, h2.symm, of_decide_eq_true h1⟩
        | error m =>
          rw [hbody] at hok
          cases hc : env.close with
          | error m2 =>
            rw [hc] at hok
            exact Except.noConfusion hok
          | ok v =>
            rw [hc] at hok
            have hok' : (Except.ok ((false, none) : Bool × Option Nat) :
                Except String (Bool × Option Nat)) = Except.ok (true, vc) := hok
            injection hok' with hpair
            injection hpair with h1 h2
            exact absurd h1 (by decide)
  · intro id env m hk hl hb hc
    unfold check_advertiser_videos
    rw [hk, hl, hb, hc]
  · intro id env m hk hl
    unfold check_advertiser_videos
    rw [hk, hl]

/-- Witness for C6: at the hardcoded adidas id the returned pair is
`(true, some 34)` and the invariant yields the positive count. -/
theorem claim_C6_witness :
    ∃ n, (some 34 : Option Nat) = some n ∧ 0 < n :=
  claim_C6_video_invariant.1 "AR14017378248766259201" ⟨.ok (), .ok 0, .ok ()⟩
    true (some 34) rfl rfl

/-- C7 counterexample: on `c7Dom` both the textual placeholder heuristic
and the class-selector heuristic find an input, and the code returns the
placeholder one — the textual pattern match runs before the selector-based
match, contradicting the claimed order (selector list first). -/
theorem claim_C7_counterexample :
    find_search_input c7Dom "" = "<input name=\"first\"/>" ∧
    approach2 c7Dom = some "<input class=\"search-box\"/>" ∧
    ("<input name=\"first\"/>" : String) ≠ "<input class=\"search-box\"/>" := by
  refine ⟨?_, ?_, by decide⟩
  · simp [find_search_input, approach1, c7Dom, spanParents, spanParentsUnder,
      isPlaceholderSpan, domString, placeholderText, litSub, litPre, findInputDesc,
      findInputUnder, renderElem, renderAttrs, List.findSome?]
  · simp [approach2, c7Dom, findAllNodes, findAllNodesUnder, isInputWithSearchClass,
      dictGet, classTokens, classTokensAux, litSub, litPre, renderElem, renderAttrs]

/-- C7 (amended): the search-input locating code of `get_page_content` is a
first-match-wins cascade in which each later heuristic runs only when all
earlier ones produced nothing, but in the order: textual placeholder-span
match first, then the class-based selector match, then the role-based
match, then the broad text-container match, then the in-page script
evaluation, with the literal fallback text last. -/
theorem claim_C7_amended_cascade (root : DomNode) (js : String) :
    find_search_input root js =
      firstNonEmpty "No search input found"
        [(approach1 root).getD "", (approach2 root).getD "",
         (approach3 root).getD "", (approach4 root).getD "", js] := by
  simp only [find_search_input]
  by_cases h1 : (approach1 root).getD "" = ""
  · by_cases h2 : (approach2 root).getD "" = ""
    · by_cases h3 : (approach3 root).getD "" = ""
      · by_cases h4 : (approach4 root).getD "" = ""
        · by_cases h5 : js = ""
          · simp [firstNonEmpty, h1, h2, h3, h4, h5]
          · simp [firstNonEmpty, h1, h2, h3, h4, h5]
        · simp [firstNonEmpty, h1, h2, h3, h4]
      · simp [firstNonEmpty, h1, h2, h3]
    · simp [firstNonEmpty, h1, h2]
  · simp [firstNonEmpty, h1]

/-! ### Characterisation of the two URL-polling loops -/

theorem urlCheckLoop_succ (probe : Nat → Except String String) (preUrl : String)
    (attempt remaining : Nat) :
    urlCheckLoop probe preUrl attempt (remaining + 1) =
      match probe attempt with
      | .ok current =>
        if current ≠ "" ∧ current ≠ preUrl then
          extract_advertiser_id_from_url current
        else urlCheckLoop probe preUrl (attempt + 1) remaining
      | .error _ => urlCheckLoop probe preUrl (attempt + 1) remaining := rfl

theorem urlCheckLoop_char (probe : Nat → Except String String) (preUrl : String) :
    ∀ remaining attempt,
      urlCheckLoop probe preUrl attempt remaining =
        match firstChangedUrl preUrl ((List.range' attempt remaining).map probe) with
        | some u => extract_advertiser_id_from_url u
        | none => none := by
  intro remaining
  induction remaining with
  | zero => intro attempt; rfl
  | succ n ih =>
    intro attempt
    rw [urlCheckLoop_succ]
    have hr : List.range' attempt (n + 1) = attempt :: List.range' (attempt + 1) n := rfl
    rw [hr, List.map_cons]
    cases hp : probe attempt with
    | error m =>
      simp only [firstChangedUrl]
      exact ih (attempt + 1)
    | ok u =>
      simp only [firstChangedUrl]
      by_cases hc : u ≠ "" ∧ u ≠ preUrl
      · rw [if_pos hc, if_pos hc]
      · rw [if_neg hc, if_neg hc]
        exact ih (attempt + 1)

theorem urlCheckLoopS2_succ (probe : Nat → Except String String) (preUrl : String)
    (attempt remaining : Nat) :
    urlCheckLoopS2 probe preUrl attempt (remaining + 1) =
      match probe attempt with
      | .ok current =>
        if current ≠ "" ∧ current ≠ preUrl then
          match extract_advertiser_id_from_url current with
          | some id => some id
          | none => urlCheckLoopS2 probe preUrl (attempt + 1) remaining
        else urlCheckLoopS2 probe preUrl (attempt + 1) remaining
      | .error _ => urlCheckLoopS2 probe preUrl (attempt + 1) remaining := rfl

theorem urlCheckLoopS2_char (probe : Nat → Except String String) (preUrl : String) :
    ∀ remaining attempt,
      urlCheckLoopS2 probe preUrl attempt remaining =
        ((List.range' attempt remaining).map probe).findSome? fun r =>
          match r with
          | .ok u =>
            if u ≠ "" ∧ u ≠ preUrl then extract_advertiser_id_from_url u else none
          | .error _ => none := by
  intro remaining
  induction remaining with
  | zero => intro attempt; rfl
  | succ n ih =>
    intro attempt
    rw [urlCheckLoopS2_succ]
    have hr : List.range' attempt (n + 1) = attempt :: List.range' (attempt + 1) n := rfl
    rw [hr, List.map_cons]
    cases hp : probe attempt with
    | error m =>
      simp only [List.findSome?]
      exact ih (attempt + 1)
    | ok u =>
      simp only [List.findSome?]
      by_cases hc : u ≠ "" ∧ u ≠ preUrl
      · rw [if_pos hc, if_pos hc]
        cases he : extract_advertiser_id_from_url u with
        | some id => rfl
        | none => exact ih (attempt + 1)
      · rw [if_neg hc, if_neg hc]
        exact ih (attempt + 1)

/-- C8 counterexample: two probe oracles that agree on the first attempt —
and fail it (the URL is unchanged) — produce different outcomes, so the URL
probe is re-attempted after failing rather than being one-shot. -/
theorem claim_C8_counterexample :
    c8ProbeA 0 = c8ProbeB 0 ∧
    urlCheck3 c8ProbeA "https://adstransparency.google.com/" = none ∧
    urlCheck3 c8ProbeB "https://adstransparency.google.com/" = some "AR123" ∧
    urlCheck3 c8ProbeA "https://adstransparency.google.com/" ≠
      urlCheck3 c8ProbeB "https://adstransparency.google.com/" := by
  refine ⟨rfl, rfl, rfl, fun hc => ?_⟩
  rw [show urlCheck3 c8ProbeA "https://adstransparency.google.com/" = none from rfl,
    show urlCheck3 c8ProbeB "https://adstransparency.google.com/" = some "AR123" from
      rfl] at hc
  exact Option.noConfusion hc

/-- C8 (amended): the URL-change probe inside each search strategy is
retried up to 3 times rather than being one-shot.  Strategy 1's loop stops
at the first attempt that reports a changed non-empty URL — its extracted
id, or nothing when extraction fails (the `break` at line 232) — while
strategy 2's loop, which has no `break`, returns the first attempt whose
changed non-empty URL actually yields an advertiser id, re-attempting also
after a changed URL whose extraction failed; exhausting the three attempts
yields nothing.  Apart from these bounded retry loops, progression on
failure is sequentially to the next heuristic. -/
theorem claim_C8_amended_retry (probe : Nat → Except String String) (preUrl : String) :
    (urlCheck3 probe preUrl =
      match firstChangedUrl preUrl [probe 0, probe 1, probe 2] with
      | some u => extract_advertiser_id_from_url u
      | none => none)
  ∧ (urlCheck3S2 probe preUrl =
      [probe 0, probe 1, probe 2].findSome? fun r =>
        match r with
        | .ok u =>
          if u ≠ "" ∧ u ≠ preUrl then extract_advertiser_id_from_url u else none
        | .error _ => none) :=
  ⟨urlCheckLoop_char probe preUrl 3 0, urlCheckLoopS2_char probe preUrl 3 0⟩

/-- C9: the HTTP surface is exactly the two routes `GET /ping` and
`POST /scrape`, and every `/ping` call answers with status `"ok"`, the
current timestamp, and version `"1.0.0"`. -/
theorem claim_C9_http_surface (now : String) :
    app_routes = [("GET", "/ping"), ("POST", "/scrape")] ∧
    (ping now).status = "ok" ∧ (ping now).version = "1.0.0" ∧
    (ping now).timestamp = now :=
  ⟨rfl, rfl, rfl, rfl⟩

/-- C10: `NAVIGATION_TIMEOUT` and `WAIT_TIMEOUT` default to 60000 and
30000 ms, are overridable through the environment variables of the same
names, and the two scraping sessions set fixed context default timeouts of
90000 and 60000 ms, so every page operation is configured with a finite
timeout. -/
theorem claim_C10_timeouts (osEnv : String → Option String) :
    (osEnv "NAVIGATION_TIMEOUT" = none → NAVIGATION_TIMEOUT osEnv = some 60000)
  ∧ (osEnv "WAIT_TIMEOUT" = none → WAIT_TIMEOUT osEnv = some 30000)
  ∧ (∀ s n, osEnv "NAVIGATION_TIMEOUT" = some s → pyIntOfStr s = some n →
      NAVIGATION_TIMEOUT osEnv = some n)
  ∧ (∀ s n, osEnv "WAIT_TIMEOUT" = some s → pyIntOfStr s = some n →
      WAIT_TIMEOUT osEnv = some n)
  ∧ get_advertiser_id_context_timeout = 90000
  ∧ check_advertiser_videos_context_timeout = 60000 := by
  refine ⟨?_, ?_, ?_, ?_, rfl, rfl⟩
  · intro h
    simp [NAVIGATION_TIMEOUT, h]
  · intro h
    simp [WAIT_TIMEOUT, h]
  · intro s n hs hn
    simp [NAVIGATION_TIMEOUT, hs, hn]
  · intro s n hs hn
    simp [WAIT_TIMEOUT, hs, hn]

/-- Witness for C10: the default and an overridden value at concrete
environments. -/
theorem claim_C10_witness :
    NAVIGATION_TIMEOUT (fun _ => none) = some 60000 ∧
    WAIT_TIMEOUT (fun _ => some "45000") = some 45000 :=
  ⟨(claim_C10_timeouts (fun _ => none)).1 rfl,
   (claim_C10_timeouts (fun _ => some "45000")).2.2.2.1 "45000" 45000 rfl (by decide)⟩

end GoogleAdsScraper
